import Mathlib

/-!
Shallow embedding of the two WebGL cube scripts
(`src/src/script.js`, the single-face variant, and `src/unnamed/part_000`,
the two-face variant with a dynamic tint).

The graphics context is modelled as an oracle (`GLBehavior`) plus a trace of
the commands issued to it (`GLCmd`).  Every function of the scripts becomes a
pure Lean function returning its result together with the list of GL commands
it issues, in source order.  `Date.now()` and the canvas dimensions become
explicit parameters.
-/

/-! ### GL enumeration constants (numeric values of the WebGL API) -/

def GL_COLOR_BUFFER_BIT : ℕ := 0x00004000

def GL_DEPTH_BUFFER_BIT : ℕ := 0x00000100

def GL_DEPTH_TEST : ℕ := 0x0B71

def GL_TRIANGLES : ℕ := 0x0004

def GL_FLOAT : ℕ := 0x1406

def GL_UNSIGNED_SHORT : ℕ := 0x1403

def GL_ARRAY_BUFFER : ℕ := 0x8892

def GL_ELEMENT_ARRAY_BUFFER : ℕ := 0x8893

def GL_STATIC_DRAW : ℕ := 0x88E4

/-! ### Objects of the graphics context -/

inductive ShaderType where
  | vertex
  | fragment
deriving DecidableEq, Repr

/-- A WebGL shader object after `shaderSource` has been set: it is determined
by its stage and its source text. -/
structure Shader where
  type : ShaderType
  source : String
deriving DecidableEq, Repr

/-- A WebGL program object after `attachShader` calls: determined by the two
attached (possibly null) shaders. -/
structure GLProgram where
  vertexShader : Option Shader
  fragmentShader : Option Shader
deriving DecidableEq, Repr

/-- Oracle for the behaviour of the external graphics context: compile/link
status queries, info logs, and location lookups. -/
structure GLBehavior where
  compileStatus : ShaderType → String → Bool
  shaderInfoLog : ShaderType → String → String
  linkStatus : Option Shader → Option Shader → Bool
  programInfoLog : Option Shader → Option Shader → String
  attribLocation : String → Int
  uniformLocation : String → ℕ

/-- One command issued to the graphics context (or to the console). -/
inductive GLCmd where
  | clearColorC (r g b a : ℝ)
  | clearC (mask : ℕ)
  | enableC (cap : ℕ)
  | createShaderC (t : ShaderType)
  | shaderSourceC (s : Shader) (src : String)
  | compileShaderC (s : Shader)
  | deleteShaderC (s : Shader)
  | createProgramC
  | attachShaderC (s : Option Shader)
  | linkProgramC
  | deleteProgramC (p : GLProgram)
  | consoleErrorC (msg : String) (log : String)
  | useProgramC (p : Option GLProgram)
  | uniformMatrix4fvC (loc : ℕ) (transpose : Bool) (m : Matrix (Fin 4) (Fin 4) ℝ)
  | uniform4fvC (loc : ℕ) (v : List ℝ)
  | bindBufferC (target : ℕ) (buf : ℕ)
  | bufferDataC (target : ℕ) (usage : ℕ)
  | vertexAttribPointerC (loc : Int) (size : ℕ) (type : ℕ) (normalized : Bool)
      (stride : ℕ) (offset : ℕ)
  | enableVertexAttribArrayC (loc : Int)
  | drawElementsC (mode : ℕ) (count : ℕ) (type : ℕ) (offset : ℕ)

/-! ### Shader setup (identical in both variants) -/

/-- Embeds `createShader(gl, type, source)`: creates the shader, sets the source,
compiles, and on failure logs the info log, deletes the shader and returns
null.  Returns the resulting (optional) shader and the issued commands. -/
def createShader (gl : GLBehavior) (type : ShaderType) (source : String) :
    Option Shader × List GLCmd :=
  let shader : Shader := ⟨type, source⟩
  if !(gl.compileStatus type source) then
    (none,
      [.createShaderC type, .shaderSourceC shader source, .compileShaderC shader,
       .consoleErrorC ("Shader compilation failed:") (gl.shaderInfoLog type source),
       .deleteShaderC shader])
  else
    (some shader,
      [.createShaderC type, .shaderSourceC shader source, .compileShaderC shader])

/-- Embeds `initShaderProgram(gl, vertexSource, fragmentSource)`: compiles both
stages, creates a program, attaches the stages, links, and on link failure
logs the program info log and returns null (no delete is issued). -/
def initShaderProgram (gl : GLBehavior) (vertexSource fragmentSource : String) :
    Option GLProgram × List GLCmd :=
  let v := createShader gl .vertex vertexSource
  let f := createShader gl .fragment fragmentSource
  let shaderProgram : GLProgram := ⟨v.1, f.1⟩
  let tr := v.2 ++ f.2 ++
    [.createProgramC, .attachShaderC v.1, .attachShaderC f.1, .linkProgramC]
  if !(gl.linkStatus v.1 f.1) then
    (none, tr ++
      [.consoleErrorC ("Shader program linking failed:") (gl.programInfoLog v.1 f.1)])
  else
    (some shaderProgram, tr)

/-! ### Geometry constants -/

/-- Vertex data of the single-face variant (`script.js`): 4 vertices,
position (3 floats) interleaved with color (3 floats). -/
def positions1 : List ℚ :=
  [-1.0, -1.0,  1.0,  1.0, 0.0, 0.0,
    1.0, -1.0,  1.0,  1.0, 0.0, 0.0,
    1.0,  1.0,  1.0,  1.0, 0.0, 0.0,
   -1.0,  1.0,  1.0,  1.0, 0.0, 0.0]

/-- Index data of the single-face variant: two triangles of the front face. -/
def indices1 : List ℕ :=
  [0, 1, 2,   0, 2, 3]

/-- Vertex data of the two-face variant (`part_000`): 8 vertices, front face
turquoise and back face red. -/
def positions2 : List ℚ :=
  [-1.0, -1.0,  1.0,  0.0, 1.0, 1.0,
    1.0, -1.0,  1.0,  0.0, 1.0, 1.0,
    1.0,  1.0,  1.0,  0.0, 1.0, 1.0,
   -1.0,  1.0,  1.0,  0.0, 1.0, 1.0,
   -1.0, -1.0, -1.0,  1.0, 0.0, 0.0,
    1.0, -1.0, -1.0,  1.0, 0.0, 0.0,
    1.0,  1.0, -1.0,  1.0, 0.0, 0.0,
   -1.0,  1.0, -1.0,  1.0, 0.0, 0.0]

/-- Index data of the two-face variant: front and back faces. -/
def indices2 : List ℕ :=
  [0, 1, 2,   0, 2, 3,
   4, 5, 6,   4, 6, 7]

/-! ### Host-provided matrix utilities

Modelled from the spec: the scripts rely on host-provided `mat4` utilities
(perspective, translate, rotate) that are not part of this repository; the
spec directs the implementer to "define an explicit small matrix/vector value
type with pure functions (perspective, translate, rotate)".  We model them as
the standard 4x4 real matrices, with `mat4.translate`/`mat4.rotate`
post-multiplying as the gl-matrix library does. -/

/-- Modelled from the spec: the translation matrix produced by the
host-provided matrix utility. -/
def translationMatrix (x y z : ℝ) : Matrix (Fin 4) (Fin 4) ℝ :=
  !![1, 0, 0, x;
     0, 1, 0, y;
     0, 0, 1, z;
     0, 0, 0, 1]

/-- Modelled from the spec: the rotation-about-Y matrix produced by the
host-provided matrix utility for axis `[0, 1, 0]`. -/
noncomputable def rotationYMatrix (rad : ℝ) : Matrix (Fin 4) (Fin 4) ℝ :=
  !![Real.cos rad, 0, Real.sin rad, 0;
     0, 1, 0, 0;
     -Real.sin rad, 0, Real.cos rad, 0;
     0, 0, 0, 1]

/-- Modelled from the spec: the perspective-projection matrix produced by the
host-provided matrix utility from field of view, aspect ratio and the
near/far planes. -/
noncomputable def perspectiveMatrix (fovy aspect nearP farP : ℝ) : Matrix (Fin 4) (Fin 4) ℝ :=
  let f := 1 / Real.tan (fovy / 2)
  let nf := 1 / (nearP - farP)
  !![f / aspect, 0, 0, 0;
     0, f, 0, 0;
     0, 0, (farP + nearP) * nf, 2 * farP * nearP * nf;
     0, 0, -1, 0]

/-- Modelled from the spec: `mat4.create()` yields the identity matrix. -/
def mat4create : Matrix (Fin 4) (Fin 4) ℝ := 1

/-- Modelled from the spec: `mat4.translate(out, a, [x,y,z])` post-multiplies
`a` by a translation. -/
def mat4translate (a : Matrix (Fin 4) (Fin 4) ℝ) (x y z : ℝ) :
    Matrix (Fin 4) (Fin 4) ℝ :=
  a * translationMatrix x y z

/-- Modelled from the spec: `mat4.rotate(out, a, rad, [0,1,0])` post-multiplies
`a` by a rotation about the Y axis. -/
noncomputable def mat4rotateY (a : Matrix (Fin 4) (Fin 4) ℝ) (rad : ℝ) :
    Matrix (Fin 4) (Fin 4) ℝ :=
  a * rotationYMatrix rad

/-! ### Per-frame matrix computations (both variants, identical lines) -/

/-- The rotation angle passed to `mat4.rotate`: `Date.now() * 0.001`. -/
def rotationAngle (nowMs : ℝ) : ℝ := nowMs * 0.001

/-- The projection matrix computed in `drawScene`:
`mat4.perspective(projectionMatrix, Math.PI / 4, canvas.width / canvas.height, 0.1, 100.0)`. -/
noncomputable def projectionMatrixOf (width height : ℝ) : Matrix (Fin 4) (Fin 4) ℝ :=
  perspectiveMatrix (Real.pi / 4) (width / height) 0.1 100.0

/-- The model-view matrix computed in `drawScene`: `mat4.create()`, then
`mat4.translate(mv, mv, [0,0,-6])`, then
`mat4.rotate(mv, mv, Date.now() * 0.001, [0,1,0])`. -/
noncomputable def modelViewMatrixOf (nowMs : ℝ) : Matrix (Fin 4) (Fin 4) ℝ :=
  mat4rotateY (mat4translate mat4create 0.0 0.0 (-6.0)) (rotationAngle nowMs)

/-! ### Dynamic tint (two-face variant only) -/

/-- Embeds `getDynamicColor()` of the two-face variant: phase-shifted sine/cosine
channels of `Date.now() * 0.001`, alpha 1. -/
noncomputable def getDynamicColor (nowMs : ℝ) : List ℝ :=
  let time := nowMs * 0.001
  let red := (Real.sin time + 1) / 2
  let green := (Real.cos time + 1) / 2
  let blue := (Real.sin (time * 0.5) + 1) / 2
  [red, green, blue, 1.0]

/-! ### Program info and buffers -/

/-- Attribute locations resolved once at startup (both variants). -/
structure AttribLocations where
  vertexPosition : Int
  vertexColor : Int

/-- Uniform locations of the single-face variant. -/
structure UniformLocations1 where
  projectionMatrix : ℕ
  modelViewMatrix : ℕ

/-- Uniform locations of the two-face variant (adds the dynamic tint). -/
structure UniformLocations2 where
  projectionMatrix : ℕ
  modelViewMatrix : ℕ
  uColor : ℕ

/-- The `programInfo` record of the single-face variant. -/
structure ProgramInfo1 where
  attribLocations : AttribLocations
  uniformLocations : UniformLocations1

/-- The `programInfo` record of the two-face variant. -/
structure ProgramInfo2 where
  attribLocations : AttribLocations
  uniformLocations : UniformLocations2

/-- The buffer handle pair returned by `initBuffers`. -/
structure Buffers where
  position : ℕ
  indices : ℕ

/-- Embeds `initBuffers(gl)`: uploads the vertex and index data into two static
buffers (handles supplied by the context) and returns the pair. -/
def initBuffers (positionBuffer indexBuffer : ℕ) : Buffers × List GLCmd :=
  (⟨positionBuffer, indexBuffer⟩,
   [.bindBufferC GL_ARRAY_BUFFER positionBuffer,
    .bufferDataC GL_ARRAY_BUFFER GL_STATIC_DRAW,
    .bindBufferC GL_ELEMENT_ARRAY_BUFFER indexBuffer,
    .bufferDataC GL_ELEMENT_ARRAY_BUFFER GL_STATIC_DRAW])

/-! ### drawScene and the render loop -/

/-- Embeds `drawScene(gl, programInfo, buffers)` of the single-face variant
(`script.js` lines 99-123): clear to (0,0,0,1), enable depth testing, upload
the two matrices, configure both interleaved attributes (stride `6 * 4`
bytes, color at offset `3 * 4`), and issue one indexed triangle draw over
`indices.length` indices. -/
noncomputable def drawScene1 (pInfo : ProgramInfo1) (buffers : Buffers)
    (shaderProgram : Option GLProgram) (nowMs width height : ℝ) : List GLCmd :=
  [.clearColorC 0.0 0.0 0.0 1.0,
   .clearC (GL_COLOR_BUFFER_BIT ||| GL_DEPTH_BUFFER_BIT),
   .enableC GL_DEPTH_TEST,
   .useProgramC shaderProgram,
   .uniformMatrix4fvC pInfo.uniformLocations.projectionMatrix false
     (projectionMatrixOf width height),
   .uniformMatrix4fvC pInfo.uniformLocations.modelViewMatrix false
     (modelViewMatrixOf nowMs),
   .bindBufferC GL_ARRAY_BUFFER buffers.position,
   .vertexAttribPointerC pInfo.attribLocations.vertexPosition 3 GL_FLOAT false
     (6 * 4) 0,
   .enableVertexAttribArrayC pInfo.attribLocations.vertexPosition,
   .vertexAttribPointerC pInfo.attribLocations.vertexColor 3 GL_FLOAT false
     (6 * 4) (3 * 4),
   .enableVertexAttribArrayC pInfo.attribLocations.vertexColor,
   .bindBufferC GL_ELEMENT_ARRAY_BUFFER buffers.indices,
   .drawElementsC GL_TRIANGLES indices1.length GL_UNSIGNED_SHORT 0]

/-- Embeds `drawScene(gl, programInfo, buffers)` of the two-face variant
(`part_000` lines 117-144): as in the single-face variant, plus the dynamic
tint uniform, drawing over the 12 indices of the two faces. -/
noncomputable def drawScene2 (pInfo : ProgramInfo2) (buffers : Buffers)
    (shaderProgram : Option GLProgram) (nowMs width height : ℝ) : List GLCmd :=
  [.clearColorC 0.0 0.0 0.0 1.0,
   .clearC (GL_COLOR_BUFFER_BIT ||| GL_DEPTH_BUFFER_BIT),
   .enableC GL_DEPTH_TEST,
   .useProgramC shaderProgram,
   .uniformMatrix4fvC pInfo.uniformLocations.projectionMatrix false
     (projectionMatrixOf width height),
   .uniformMatrix4fvC pInfo.uniformLocations.modelViewMatrix false
     (modelViewMatrixOf nowMs),
   .uniform4fvC pInfo.uniformLocations.uColor (getDynamicColor nowMs),
   .bindBufferC GL_ARRAY_BUFFER buffers.position,
   .vertexAttribPointerC pInfo.attribLocations.vertexPosition 3 GL_FLOAT false
     (6 * 4) 0,
   .enableVertexAttribArrayC pInfo.attribLocations.vertexPosition,
   .vertexAttribPointerC pInfo.attribLocations.vertexColor 3 GL_FLOAT false
     (6 * 4) (3 * 4),
   .enableVertexAttribArrayC pInfo.attribLocations.vertexColor,
   .bindBufferC GL_ELEMENT_ARRAY_BUFFER buffers.indices,
   .drawElementsC GL_TRIANGLES indices2.length GL_UNSIGNED_SHORT 0]

/-- Embeds `render()` of the single-face variant: one `drawScene` call per animation
frame; the host supplies the timestamp of each frame, so a run over a list of
frame times is the concatenation of the per-frame traces. -/
noncomputable def renderLoop1 (pInfo : ProgramInfo1) (buffers : Buffers)
    (shaderProgram : Option GLProgram) (width height : ℝ) :
    List ℝ → List GLCmd
  | [] => []
  | t :: ts =>
      drawScene1 pInfo buffers shaderProgram t width height ++
        renderLoop1 pInfo buffers shaderProgram width height ts

/-- Embeds `render()` of the two-face variant: one `drawScene` call per animation
frame. -/
noncomputable def renderLoop2 (pInfo : ProgramInfo2) (buffers : Buffers)
    (shaderProgram : Option GLProgram) (width height : ℝ) :
    List ℝ → List GLCmd
  | [] => []
  | t :: ts =>
      drawScene2 pInfo buffers shaderProgram t width height ++
        renderLoop2 pInfo buffers shaderProgram width height ts

/-! ### Trace observations -/

/-- Is a command an indexed draw call? -/
def isDrawCall : GLCmd → Bool
  | .drawElementsC _ _ _ _ => true
  | _ => false

/-- Number of draw calls in a trace. -/
def countDrawCalls (tr : List GLCmd) : ℕ :=
  (tr.filter isDrawCall).length

/-- The commands issued before the first draw call of a trace. -/
def commandsBeforeFirstDraw (tr : List GLCmd) : List GLCmd :=
  tr.takeWhile (fun c => !isDrawCall c)

/-- Is a command a shader-compile call? -/
def isCompileCall : GLCmd → Bool
  | .compileShaderC _ => true
  | _ => false

/-- Is a command a program-link call? -/
def isLinkCall : GLCmd → Bool
  | .linkProgramC => true
  | _ => false

/-- Does a trace contain a program-delete command? -/
def containsDeleteProgram (tr : List GLCmd) : Bool :=
  tr.any (fun c => match c with | .deleteProgramC _ => true | _ => false)

/-! ### Top-level startup wiring -/

/-- The vertex shader source text (identical in both variants). -/
def vertexShaderSource : String :=
  "\n    attribute vec4 aPosition;\n    attribute vec4 aColor;\n    uniform mat4 uModelViewMatrix;\n    uniform mat4 uProjectionMatrix;\n    varying lowp vec4 vColor;\n\n    void main(void) \x7b\n        gl_Position = uProjectionMatrix * uModelViewMatrix * aPosition;\n        vColor = aColor;\n    \x7d\n"

/-- The fragment shader source text of the single-face variant. -/
def fragmentShaderSource1 : String :=
  "\n    varying lowp vec4 vColor;\n\n    void main(void) \x7b\n        gl_FragColor = vColor;\n    \x7d\n"

/-- The fragment shader source text of the two-face variant (multiplies the
vertex color by the dynamic tint uniform). -/
def fragmentShaderSource2 : String :=
  "\n    precision mediump float;\n    varying lowp vec4 vColor;\n    uniform vec4 uColor;\n\n    void main(void) \x7b\n        gl_FragColor = vColor * uColor;\n    \x7d\n"

/-- The startup `shaderProgram` of the single-face variant. -/
def startupProgram1 (gl : GLBehavior) : Option GLProgram :=
  (initShaderProgram gl vertexShaderSource fragmentShaderSource1).1

/-- The startup `shaderProgram` of the two-face variant. -/
def startupProgram2 (gl : GLBehavior) : Option GLProgram :=
  (initShaderProgram gl vertexShaderSource fragmentShaderSource2).1

/-- The startup `programInfo` of the single-face variant. -/
def startupProgramInfo1 (gl : GLBehavior) : ProgramInfo1 :=
  { attribLocations :=
      { vertexPosition := gl.attribLocation ("aPosition"),
        vertexColor := gl.attribLocation ("aColor") },
    uniformLocations :=
      { projectionMatrix := gl.uniformLocation ("uProjectionMatrix"),
        modelViewMatrix := gl.uniformLocation ("uModelViewMatrix") } }

/-- The startup `programInfo` of the two-face variant. -/
def startupProgramInfo2 (gl : GLBehavior) : ProgramInfo2 :=
  { attribLocations :=
      { vertexPosition := gl.attribLocation ("aPosition"),
        vertexColor := gl.attribLocation ("aColor") },
    uniformLocations :=
      { projectionMatrix := gl.uniformLocation ("uProjectionMatrix"),
        modelViewMatrix := gl.uniformLocation ("uModelViewMatrix"),
        uColor := gl.uniformLocation ("uColor") } }

/-! ### Shared helper lemmas -/

theorem countDrawCalls_append (a b : List GLCmd) :
    countDrawCalls (a ++ b) = countDrawCalls a + countDrawCalls b := by
  simp [countDrawCalls, List.filter_append]

theorem countDrawCalls_drawScene1 (pInfo : ProgramInfo1) (buffers : Buffers)
    (prog : Option GLProgram) (nowMs width height : ℝ) :
    countDrawCalls (drawScene1 pInfo buffers prog nowMs width height) = 1 := rfl

theorem countDrawCalls_drawScene2 (pInfo : ProgramInfo2) (buffers : Buffers)
    (prog : Option GLProgram) (nowMs width height : ℝ) :
    countDrawCalls (drawScene2 pInfo buffers prog nowMs width height) = 1 := rfl

theorem countDrawCalls_renderLoop1 (pInfo : ProgramInfo1) (buffers : Buffers)
    (prog : Option GLProgram) (width height : ℝ) (ts : List ℝ) :
    countDrawCalls (renderLoop1 pInfo buffers prog width height ts) = ts.length := by
  induction ts with
  | nil => rfl
  | cons t ts ih =>
      simp [renderLoop1, countDrawCalls_append, ih,
        countDrawCalls_drawScene1 pInfo buffers prog t width height,
        Nat.add_comm]

theorem countDrawCalls_renderLoop2 (pInfo : ProgramInfo2) (buffers : Buffers)
    (prog : Option GLProgram) (width height : ℝ) (ts : List ℝ) :
    countDrawCalls (renderLoop2 pInfo buffers prog width height ts) = ts.length := by
  induction ts with
  | nil => rfl
  | cons t ts ih =>
      simp [renderLoop2, countDrawCalls_append, ih,
        countDrawCalls_drawScene2 pInfo buffers prog t width height,
        Nat.add_comm]

theorem compileShaderC_mem_createShader (gl : GLBehavior) (t : ShaderType)
    (src : String) :
    GLCmd.compileShaderC ⟨t, src⟩ ∈ (createShader gl t src).2 := by
  cases h : gl.compileStatus t src <;> simp [createShader, h]

/-! ### Claim theorems -/

/-- C1: every frame-loop iteration issues exactly one indexed triangle-list
draw call over the full index count (6 indices in the single-face variant,
12 in the two-face variant), and before that draw the color buffer is
cleared to (0,0,0,1) and depth testing is enabled.  Over a whole run, the
loop issues exactly one draw call per scheduled frame. -/
theorem frame_draw_call_spec (pI1 : ProgramInfo1) (pI2 : ProgramInfo2)
    (buffers : Buffers) (prog1 prog2 : Option GLProgram)
    (nowMs width height : ℝ) (frameTimes : List ℝ) :
    countDrawCalls (drawScene1 pI1 buffers prog1 nowMs width height) = 1 ∧
    GLCmd.drawElementsC GL_TRIANGLES 6 GL_UNSIGNED_SHORT 0 ∈
      drawScene1 pI1 buffers prog1 nowMs width height ∧
    GLCmd.clearColorC 0.0 0.0 0.0 1.0 ∈
      commandsBeforeFirstDraw (drawScene1 pI1 buffers prog1 nowMs width height) ∧
    GLCmd.clearC (GL_COLOR_BUFFER_BIT ||| GL_DEPTH_BUFFER_BIT) ∈
      commandsBeforeFirstDraw (drawScene1 pI1 buffers prog1 nowMs width height) ∧
    GLCmd.enableC GL_DEPTH_TEST ∈
      commandsBeforeFirstDraw (drawScene1 pI1 buffers prog1 nowMs width height) ∧
    countDrawCalls (drawScene2 pI2 buffers prog2 nowMs width height) = 1 ∧
    GLCmd.drawElementsC GL_TRIANGLES 12 GL_UNSIGNED_SHORT 0 ∈
      drawScene2 pI2 buffers prog2 nowMs width height ∧
    GLCmd.clearColorC 0.0 0.0 0.0 1.0 ∈
      commandsBeforeFirstDraw (drawScene2 pI2 buffers prog2 nowMs width height) ∧
    GLCmd.clearC (GL_COLOR_BUFFER_BIT ||| GL_DEPTH_BUFFER_BIT) ∈
      commandsBeforeFirstDraw (drawScene2 pI2 buffers prog2 nowMs width height) ∧
    GLCmd.enableC GL_DEPTH_TEST ∈
      commandsBeforeFirstDraw (drawScene2 pI2 buffers prog2 nowMs width height) ∧
    countDrawCalls (renderLoop1 pI1 buffers prog1 width height frameTimes) =
      frameTimes.length ∧
    countDrawCalls (renderLoop2 pI2 buffers prog2 width height frameTimes) =
      frameTimes.length := by
  refine ⟨rfl, ?_, ?_, ?_, ?_, rfl, ?_, ?_, ?_, ?_,
    countDrawCalls_renderLoop1 pI1 buffers prog1 width height frameTimes,
    countDrawCalls_renderLoop2 pI2 buffers prog2 width height frameTimes⟩ <;>
    simp [drawScene1, drawScene2, commandsBeforeFirstDraw, isDrawCall,
      indices1, indices2]

theorem compileCalls_createShader (gl : GLBehavior) (t : ShaderType)
    (src : String) :
    ((createShader gl t src).2.filter isCompileCall).length = 1 := by
  cases h : gl.compileStatus t src <;> simp [createShader, h, isCompileCall]

theorem linkCalls_createShader (gl : GLBehavior) (t : ShaderType)
    (src : String) :
    (createShader gl t src).2.filter isLinkCall = [] := by
  cases h : gl.compileStatus t src <;> simp [createShader, h, isLinkCall]

theorem linkCalls_initShaderProgram (gl : GLBehavior) (vs fs : String) :
    ((initShaderProgram gl vs fs).2.filter isLinkCall).length = 1 := by
  cases hl : gl.linkStatus (createShader gl .vertex vs).1
      (createShader gl .fragment fs).1 <;>
    simp [initShaderProgram, hl, List.filter_append, linkCalls_createShader,
      isLinkCall]

/-- C4: neither compilation failure nor link failure is retried (each stage
is compiled exactly once and the program is linked exactly once, whatever the
outcome), and the frame loop is not guarded against a missing program: with a
null program handle, every iteration still issues the full draw sequence. -/
theorem frame_loop_unguarded (pI1 : ProgramInfo1) (pI2 : ProgramInfo2)
    (buffers : Buffers) (nowMs width height : ℝ) (frameTimes : List ℝ)
    (gl : GLBehavior) (t : ShaderType) (src vs fs : String) :
    countDrawCalls (drawScene1 pI1 buffers none nowMs width height) = 1 ∧
    GLCmd.drawElementsC GL_TRIANGLES 6 GL_UNSIGNED_SHORT 0 ∈
      drawScene1 pI1 buffers none nowMs width height ∧
    countDrawCalls (renderLoop1 pI1 buffers none width height frameTimes) =
      frameTimes.length ∧
    countDrawCalls (drawScene2 pI2 buffers none nowMs width height) = 1 ∧
    GLCmd.drawElementsC GL_TRIANGLES 12 GL_UNSIGNED_SHORT 0 ∈
      drawScene2 pI2 buffers none nowMs width height ∧
    countDrawCalls (renderLoop2 pI2 buffers none width height frameTimes) =
      frameTimes.length ∧
    ((createShader gl t src).2.filter isCompileCall).length = 1 ∧
    ((initShaderProgram gl vs fs).2.filter isLinkCall).length = 1 := by
  refine ⟨rfl, ?_, countDrawCalls_renderLoop1 pI1 buffers none width height frameTimes,
    rfl, ?_, countDrawCalls_renderLoop2 pI2 buffers none width height frameTimes,
    compileCalls_createShader gl t src, linkCalls_initShaderProgram gl vs fs⟩ <;>
    simp [drawScene1, drawScene2, indices1, indices2]

/-- C5: in both variants the hardcoded vertex array length is a multiple of
6 floats, and every hardcoded index is strictly below the vertex count
(vertex array length divided by 6). -/
theorem geometry_invariants :
    positions1.length % 6 = 0 ∧
    indices1.all (fun i => i < positions1.length / 6) = true ∧
    positions2.length % 6 = 0 ∧
    indices2.all (fun i => i < positions2.length / 6) = true := by
  decide

/-- C6: every frame configures the position attribute at byte offset 0 and
the color attribute at byte offset `3 * 4` with byte stride `6 * 4` for both,
before the draw, and then issues one indexed triangle-list draw over the full
index count (`indices.length`, which is 6 resp. 12). -/
theorem attribute_layout_and_draw (pI1 : ProgramInfo1) (pI2 : ProgramInfo2)
    (buffers : Buffers) (prog1 prog2 : Option GLProgram)
    (nowMs width height : ℝ) :
    GLCmd.vertexAttribPointerC pI1.attribLocations.vertexPosition 3 GL_FLOAT
        false (6 * 4) 0 ∈
      commandsBeforeFirstDraw (drawScene1 pI1 buffers prog1 nowMs width height) ∧
    GLCmd.vertexAttribPointerC pI1.attribLocations.vertexColor 3 GL_FLOAT
        false (6 * 4) (3 * 4) ∈
      commandsBeforeFirstDraw (drawScene1 pI1 buffers prog1 nowMs width height) ∧
    countDrawCalls (drawScene1 pI1 buffers prog1 nowMs width height) = 1 ∧
    GLCmd.drawElementsC GL_TRIANGLES indices1.length GL_UNSIGNED_SHORT 0 ∈
      drawScene1 pI1 buffers prog1 nowMs width height ∧
    indices1.length = 6 ∧
    GLCmd.vertexAttribPointerC pI2.attribLocations.vertexPosition 3 GL_FLOAT
        false (6 * 4) 0 ∈
      commandsBeforeFirstDraw (drawScene2 pI2 buffers prog2 nowMs width height) ∧
    GLCmd.vertexAttribPointerC pI2.attribLocations.vertexColor 3 GL_FLOAT
        false (6 * 4) (3 * 4) ∈
      commandsBeforeFirstDraw (drawScene2 pI2 buffers prog2 nowMs width height) ∧
    countDrawCalls (drawScene2 pI2 buffers prog2 nowMs width height) = 1 ∧
    GLCmd.drawElementsC GL_TRIANGLES indices2.length GL_UNSIGNED_SHORT 0 ∈
      drawScene2 pI2 buffers prog2 nowMs width height ∧
    indices2.length = 12 := by
  refine ⟨?_, ?_, rfl, ?_, rfl, ?_, ?_, rfl, ?_, rfl⟩ <;>
    simp [drawScene1, drawScene2, commandsBeforeFirstDraw, isDrawCall]

/-- C10: for every elapsed time, `getDynamicColor` returns a 4-component
vector whose fourth (alpha) component is exactly 1. -/
theorem dynamic_color_alpha_one (nowMs : ℝ) :
    (getDynamicColor nowMs).length = 4 ∧
    (getDynamicColor nowMs)[3]? = some 1 := by
  constructor
  · rfl
  · simp [getDynamicColor]
    norm_num

/-- C2: in the tinted variant, for every elapsed time `t` (in seconds, i.e.
`Date.now() * 0.001`) the tint has red channel `(sin t + 1)/2`, green channel
`(cos t + 1)/2` and blue channel `(sin (0.5 t) + 1)/2`, and each channel lies
in `[0, 1]`. -/
theorem dynamic_tint_formula (t : ℝ) :
    getDynamicColor (t * 1000) =
      [(Real.sin t + 1) / 2, (Real.cos t + 1) / 2,
       (Real.sin (0.5 * t) + 1) / 2, 1] ∧
    (0 ≤ (Real.sin t + 1) / 2 ∧ (Real.sin t + 1) / 2 ≤ 1) ∧
    (0 ≤ (Real.cos t + 1) / 2 ∧ (Real.cos t + 1) / 2 ≤ 1) ∧
    (0 ≤ (Real.sin (0.5 * t) + 1) / 2 ∧ (Real.sin (0.5 * t) + 1) / 2 ≤ 1) := by
  have ht : t * 1000 * 0.001 = t := by norm_num; ring
  refine ⟨?_, ⟨?_, ?_⟩, ⟨?_, ?_⟩, ⟨?_, ?_⟩⟩
  · simp only [getDynamicColor]
    rw [ht, mul_comm t 0.5]
    norm_num
  · have := Real.neg_one_le_sin t
    linarith
  · have := Real.sin_le_one t
    linarith
  · have := Real.neg_one_le_cos t
    linarith
  · have := Real.cos_le_one t
    linarith
  · have := Real.neg_one_le_sin (0.5 * t)
    linarith
  · have := Real.sin_le_one (0.5 * t)
    linarith

/-- C7: the per-frame rotation angle `Date.now() * 0.001` is a non-decreasing
function of wall-clock time, equals the elapsed time in seconds (so it is 0
at t = 0 and pi at t = pi seconds), and the model-view matrix is the
translation (0,0,-6) composed with the rotation about the Y axis by that
angle. -/
theorem rotation_angle_modelview :
    Monotone rotationAngle ∧
    rotationAngle 0 = 0 ∧
    (∀ s : ℝ, rotationAngle (s * 1000) = s) ∧
    rotationAngle (Real.pi * 1000) = Real.pi ∧
    (∀ nowMs : ℝ, modelViewMatrixOf nowMs =
      translationMatrix 0.0 0.0 (-6.0) * rotationYMatrix (rotationAngle nowMs)) := by
  refine ⟨?_, ?_, ?_, ?_, ?_⟩
  · intro a b hab
    have h : a * 0.001 ≤ b * 0.001 := by nlinarith
    simpa [rotationAngle] using h
  · simp [rotationAngle]
  · intro s
    simp only [rotationAngle]
    norm_num
    ring
  · simp only [rotationAngle]
    norm_num
    ring
  · intro nowMs
    simp [modelViewMatrixOf, mat4rotateY, mat4translate, mat4create, one_mul]

/-- C7 witness: the monotonicity part of `rotation_angle_modelview` at the
concrete pair of times 0 and 1000. -/
theorem rotation_angle_modelview_witness :
    rotationAngle 0 ≤ rotationAngle 1000 :=
  rotation_angle_modelview.1 (by norm_num : (0 : ℝ) ≤ 1000)

/-- C8: the per-frame projection matrix is a pure function of the aspect
ratio together with the fixed parameters (field of view 45 degrees, near
plane 0.1, far plane 100): equal aspect ratios give identical matrices. -/
theorem projection_pure_function (w1 h1 w2 h2 : ℝ)
    (hasp : w1 / h1 = w2 / h2) :
    projectionMatrixOf w1 h1 = projectionMatrixOf w2 h2 ∧
    projectionMatrixOf w1 h1 =
      perspectiveMatrix (Real.pi / 4) (w1 / h1) 0.1 100.0 ∧
    Real.pi / 4 = 45 * (Real.pi / 180) := by
  refine ⟨?_, rfl, by ring⟩
  simp [projectionMatrixOf, hasp]

/-- C8 witness: two canvases of sizes 800x600 and 400x300 have the same
aspect ratio, hence identical projection matrices. -/
theorem projection_pure_function_witness :
    projectionMatrixOf 800 600 = projectionMatrixOf 400 300 :=
  (projection_pure_function 800 600 400 300 (by norm_num)).1

/-! ### Concrete context behaviours for the error-handling claims -/

/-- A context in which every compilation succeeds except for the source text
"bad", and every link fails. -/
def glScenario : GLBehavior :=
  { compileStatus := fun _ source => source != ("bad"),
    shaderInfoLog := fun _ _ => ("compile diagnostics"),
    linkStatus := fun _ _ => false,
    programInfoLog := fun _ _ => ("link diagnostics"),
    attribLocation := fun _ => 0,
    uniformLocation := fun _ => 0 }

/-- A context in which every compilation fails. -/
def glAllFail : GLBehavior :=
  { compileStatus := fun _ _ => false,
    shaderInfoLog := fun _ _ => ("compile diagnostics"),
    linkStatus := fun _ _ => false,
    programInfoLog := fun _ _ => ("link diagnostics"),
    attribLocation := fun _ => -1,
    uniformLocation := fun _ => 0 }

/-- C3 counterexample: a run in which both stages compile but the link fails.
The failure is logged and a null program returned, but no program-delete
command is ever issued, so the failed program object is not discarded
(unlike the failed-shader case, which issues `deleteShader`). -/
theorem link_failure_program_not_deleted :
    (initShaderProgram glScenario ("v") ("f")).1 = none ∧
    GLCmd.consoleErrorC ("Shader program linking failed:") ("link diagnostics") ∈
      (initShaderProgram glScenario ("v") ("f")).2 ∧
    containsDeleteProgram (initShaderProgram glScenario ("v") ("f")).2 = false := by
  refine ⟨rfl, ?_, rfl⟩
  simp [initShaderProgram, createShader, glScenario]

/-- C3 amended: both failure kinds are detected synchronously right after the
corresponding setup call and logged with the diagnostic text obtained from
the context; the failed shader stage is discarded with a delete call, while
the failed program is only abandoned by returning a null handle — no
program-delete call is issued. -/
theorem failure_reporting_amended (gl : GLBehavior) (badSrc vs fs : String)
    (hbad : gl.compileStatus .vertex badSrc = false)
    (hv : gl.compileStatus .vertex vs = true)
    (hf : gl.compileStatus .fragment fs = true)
    (hl : gl.linkStatus (some ⟨.vertex, vs⟩) (some ⟨.fragment, fs⟩) = false) :
    createShader gl .vertex badSrc =
      (none,
       [.createShaderC .vertex, .shaderSourceC ⟨.vertex, badSrc⟩ badSrc,
        .compileShaderC ⟨.vertex, badSrc⟩,
        .consoleErrorC ("Shader compilation failed:")
          (gl.shaderInfoLog .vertex badSrc),
        .deleteShaderC ⟨.vertex, badSrc⟩]) ∧
    initShaderProgram gl vs fs =
      (none,
       [.createShaderC .vertex, .shaderSourceC ⟨.vertex, vs⟩ vs,
        .compileShaderC ⟨.vertex, vs⟩,
        .createShaderC .fragment, .shaderSourceC ⟨.fragment, fs⟩ fs,
        .compileShaderC ⟨.fragment, fs⟩,
        .createProgramC, .attachShaderC (some ⟨.vertex, vs⟩),
        .attachShaderC (some ⟨.fragment, fs⟩), .linkProgramC,
        .consoleErrorC ("Shader program linking failed:")
          (gl.programInfoLog (some ⟨.vertex, vs⟩) (some ⟨.fragment, fs⟩))]) ∧
    containsDeleteProgram (initShaderProgram gl vs fs).2 = false := by
  refine ⟨by simp [createShader, hbad], ?_, ?_⟩
  · simp [initShaderProgram, createShader, hv, hf, hl]
  · simp [initShaderProgram, createShader, containsDeleteProgram, hv, hf, hl]

/-- C3 witness: `failure_reporting_amended` applied to the concrete context
`glScenario`, the failing source "bad" and the succeeding sources "v", "f". -/
theorem failure_reporting_amended_witness :
    (initShaderProgram glScenario ("v") ("f")).1 = none ∧
    containsDeleteProgram (initShaderProgram glScenario ("v") ("f")).2 = false := by
  have h := failure_reporting_amended glScenario ("bad") ("v") ("f")
    (by decide) (by decide) (by decide) rfl
  exact ⟨by rw [h.2.1], h.2.2⟩

/-- C9: whenever the context rejects a source text, `createShader` logs the
diagnostic obtained from the context and returns null (it is a total
function, so it never crashes); and `initShaderProgram` issues a compile for
each of the two stages. -/
theorem shader_compile_failure_safe (gl : GLBehavior) (t : ShaderType)
    (src vs fs : String) (h : gl.compileStatus t src = false) :
    (createShader gl t src).1 = none ∧
    GLCmd.consoleErrorC ("Shader compilation failed:") (gl.shaderInfoLog t src) ∈
      (createShader gl t src).2 ∧
    GLCmd.compileShaderC ⟨t, src⟩ ∈ (createShader gl t src).2 ∧
    GLCmd.compileShaderC ⟨.vertex, vs⟩ ∈ (initShaderProgram gl vs fs).2 ∧
    GLCmd.compileShaderC ⟨.fragment, fs⟩ ∈ (initShaderProgram gl vs fs).2 := by
  refine ⟨by simp [createShader, h], by simp [createShader, h],
    by simp [createShader, h], ?_, ?_⟩ <;>
    cases hl : gl.linkStatus (createShader gl .vertex vs).1
        (createShader gl .fragment fs).1 <;>
      simp [initShaderProgram, hl, compileShaderC_mem_createShader]

/-- C9 witness: `shader_compile_failure_safe` at the concrete all-failing
context and a concrete rejected source text. -/
theorem shader_compile_failure_safe_witness :
    (createShader glAllFail .vertex ("bad source")).1 = none :=
  (shader_compile_failure_safe glAllFail .vertex ("bad source")
    vertexShaderSource fragmentShaderSource1 rfl).1
